import Mathlib

/-!
Shallow embedding of `lazyapi.py`: a concurrent URL-probing pipeline.
The network and the HTML parser (the `requests` library and BeautifulSoup)
are external collaborators; they are modelled by explicit inputs
(`Transport`, the fields of `Response`) while every function of the
repository itself is translated line by line from the source.
-/

namespace Lazyapi

/-- Python `str.lower()` (character-wise lowercasing; the method names and
header names the program lowercases are ASCII). -/
def pyLower (s : String) : String :=
  String.mk (s.data.map Char.toLower)

/-- Python `str.strip()`: drop leading and trailing whitespace. -/
def pyStrip (s : String) : String :=
  String.mk
    (((s.data.dropWhile Char.isWhitespace).reverse.dropWhile
      Char.isWhitespace).reverse)

/-- Python truthiness of an optional string (`None` and `""` are falsy). -/
def pyTruthy (o : Option String) : Bool :=
  match o with
  | none => false
  | some s => s ≠ ""

/-- Python `repr`-style rendering used by f-strings for an optional string:
`None` prints as `"None"`, a plain string prints as its characters
(f-string interpolation calls `str`, not `repr`, on the value itself). -/
def pyShowOptStr (o : Option String) : String :=
  match o with
  | none => "None"
  | some s => s

/-- Rendering of a Python dict of strings inside an f-string,
e.g. `{'a': '1', 'b': '2'}`. -/
def pyDictRepr (d : List (String × String)) : String :=
  "\x7b" ++ String.intercalate ", "
    (d.map (fun p => "'" ++ p.1 ++ "': '" ++ p.2 ++ "'")) ++ "\x7d"

/-- Case-insensitive header lookup with a default, modelling
`response.headers.get(key, default)` on a `requests.structures.CaseInsensitiveDict`. -/
def ciGet (hs : List (String × String)) (key : String) (dflt : String) : String :=
  match hs.find? (fun p => pyLower p.1 == pyLower key) with
  | some p => p.2
  | none => dflt

/-- `{k.lower(): v for k, v in headers.items()}` followed by `.get(key, default)`:
a Python dict comprehension keeps the last binding of a duplicated key. -/
def lowerGet (hs : List (String × String)) (key : String) (dflt : String) : String :=
  match (hs.map (fun p => (pyLower p.1, p.2))).reverse.find? (fun p => p.1 == key) with
  | some p => p.2
  | none => dflt

/-- One entry of `response.history`: only its headers are ever consulted
(`history[-1].headers.get('Location', ...)`). -/
structure HistEntry where
  headers : List (String × String)
deriving Repr, DecidableEq

/-- The raw HTTP response handed back by the `requests` collaborator:
status, body bytes length, body text, headers, redirect history. -/
structure Response where
  status_code : Int
  content_length : Nat
  text : String
  headers : List (String × String)
  history : List HistEntry
deriving Repr, DecidableEq

/-- Outcome of the single HTTP request a probe performs: either a response
together with the elapsed wall-clock time `end_time - start_time`,
or a raised `requests.RequestException` carrying a message. -/
inductive Transport where
  | ok (resp : Response) (elapsed : Int)
  | exn (msg : String)
deriving Repr, DecidableEq

/-- A log record emitted through `logging`. -/
inductive LogEntry where
  | error (msg : String)
  | info (msg : String)
deriving Repr, DecidableEq

/-! ### The parsed command line (`argparse` namespace object) -/

structure Args where
  file : Option String
  url : Option String
  output : Option String
  direct : Bool
  method : String
  status_code : Option (List Int)
  parameters : Option String
  threads : Int
  headers : Option String
  response_body : Bool
deriving Repr, DecidableEq

/-! ### `parse_parameters` -/

/-- Python `"s".split(",")` (the separator is the single character `,`). -/
def pySplitComma (s : String) : List String :=
  s.splitOn ","

/-- Python `pair.split("=", 1)` when `"=" in pair`: the key is everything
before the first `=`, the value everything after it. -/
def splitEqOnce (pair : String) : Option (String × String) :=
  match pair.splitOn "=" with
  | [] => none
  | [_] => none
  | k :: rest => some (k, String.intercalate "=" rest)

/-- `parse_parameters`: parse `"k1=v1,k2=v2"` into an association list;
a fragment without `=` is skipped; later duplicates overwrite earlier ones
(modelled by keeping insertion order and reading through `lowerGet`-style
last-wins lookups where it matters; no claim depends on duplicate keys). -/
def parse_parameters (parameters_str : Option String) : List (String × String) :=
  match parameters_str with
  | none => []
  | some s =>
    if s = "" then []
    else (pySplitComma s).foldl
      (fun acc pair =>
        match splitEqOnce pair with
        | some kv => acc ++ [kv]
        | none => acc) []

/-! ### Title extraction (line 85–86)

`soup = BeautifulSoup(response.text, 'html.parser')` followed by
`title = soup.title.string if soup.title else '未找到标题'`.
BeautifulSoup is an external collaborator; `soupTitle` models what
`html.parser` yields for `soup.title` and its `.string`: the outer `none`
means no `<title>` element exists in the body, `some none` means the
element exists but has no single text child (Python `None`), and
`some (some s)` is a title element whose text is `s`.  The model locates
the first literal `<title>` opening and reads text up to the closing
`</title>` (or end of input), which is how `html.parser` treats the
well-formed and truncated bodies the claims exercise.  It is total:
no body makes it raise. -/

/-- The suffix of `l` that follows the first occurrence of `pat`, if any. -/
def dropAfter (pat : List Char) : List Char → Option (List Char)
  | [] => if pat.isEmpty then some [] else none
  | c :: cs =>
    if pat.isPrefixOf (c :: cs) then some ((c :: cs).drop pat.length)
    else dropAfter pat cs

/-- The prefix of `l` that precedes the first occurrence of `pat`
(all of `l` if `pat` never occurs). -/
def takeUntil (pat : List Char) : List Char → List Char
  | [] => []
  | c :: cs =>
    if pat.isPrefixOf (c :: cs) then []
    else c :: takeUntil pat cs

/-- `soup.title` / `soup.title.string` for a body, as described above. -/
def soupTitle (body : String) : Option (Option String) :=
  match dropAfter "<title>".data body.data with
  | none => none
  | some rest =>
    let t := takeUntil "</title>".data rest
    if t.isEmpty then some none else some (some (String.mk t))

/-- Line 86: `soup.title.string if soup.title else '未找到标题'`.
The result is an optional string because `.string` itself can be `None`. -/
def extract_title (text : String) : Option String :=
  match soupTitle text with
  | none => some "未找到标题"
  | some s => s

/-! ### `get_url_info` (lines 58–96) -/

/-- The tuple returned by `get_url_info`: eight positional values, each of
which is `None` on the two failure paths. -/
structure GetUrlTuple where
  status_code : Option Int
  title : Option String
  response_length : Option Nat
  content_type : Option String
  server : Option String
  response_time : Option Int
  history : Option (List HistEntry)
  body : Option String
deriving Repr, DecidableEq

/-- `return None, None, None, None, None, None, None, None`. -/
def noneTuple : GetUrlTuple :=
  ⟨none, none, none, none, none, none, none, none⟩

/-- Line 69–76: the method names the dispatch chain accepts,
compared after `method.lower()`. -/
def supportedMethod (method : String) : Bool :=
  pyLower method == "get" || pyLower method == "post" ||
  pyLower method == "put" || pyLower method == "delete"

/-- `get_url_info(url, method, params, headers)`.  The one request the body
would perform is supplied as `net`; `params` and request headers influence
only the wire request, not the control flow, so they do not appear.
Unsupported method names log an error and return the all-`None` tuple;
a raised `requests.RequestException` is caught, logged, and yields the same
tuple; otherwise the eight fields are extracted from the response. -/
def get_url_info (net : Transport) (url : String) (method : String) :
    GetUrlTuple × List LogEntry :=
  if supportedMethod method then
    match net with
    | .exn e =>
      (noneTuple, [.error ("请求 " ++ url ++ " 时出错: " ++ e)])
    | .ok resp elapsed =>
      ({ status_code := some resp.status_code
         title := extract_title resp.text
         response_length := some resp.content_length
         content_type := some (ciGet resp.headers "Content-Type" "未找到 Content-Type")
         server := some (lowerGet resp.headers "server" "未找到 Server")
         response_time := some elapsed
         history := some resp.history
         body := some resp.text }, [])
  else
    (noneTuple, [.error ("不支持的请求方法: " ++ method)])

/-! ### `format_output` (lines 99–133) -/

/-- The fixed 50-dash separator closing every block (`"-" * 50`). -/
def separatorLine : String :=
  String.mk (List.replicate 50 '-') ++ "\n"

/-- `format_output`: renders the fixed multi-field text block.  The float
formatting `f"{response_time:.2f}"` is abstracted to decimal rendering of
the integer elapsed-time model; `title` stays optional because Python would
print `None` for a title-less `<title>` element.  The body section is
emitted only when `response_body` is truthy (`if response_body:`), so both
`None` and the empty string suppress it. -/
def format_output (full_url : String) (status_code : Int) (title : Option String)
    (response_length : Nat) (method : String)
    (params hdrs : List (String × String)) (content_type server : String)
    (response_time : Int) (redirect_count : Nat) (final_url : String)
    (response_body : Option String) : String :=
  let output := "    URL: " ++ full_url ++ "\n"
  let output := output ++ "    状态码: " ++ toString status_code ++ "\n"
  let output := output ++ "    网站标题: " ++ pyShowOptStr title ++ "\n"
  let output := output ++ "    响应长度: " ++ toString response_length ++ " 字节\n"
  let output := output ++ "    请求方法: " ++ method ++ "\n"
  let output := output ++ "    请求参数: " ++ pyDictRepr params ++ "\n"
  let output := output ++ "    请求 headers: " ++ pyDictRepr hdrs ++ "\n"
  let output := output ++ "    Content-Type: " ++ content_type ++ "\n"
  let output := output ++ "    Server: " ++ server ++ "\n"
  let output := output ++ "    响应时间: " ++ toString response_time ++ " 秒\n"
  let output := output ++ "    重定向次数: " ++ toString redirect_count ++ "\n"
  let output := output ++ "    最终 URL: " ++ final_url ++ "\n"
  let output := if pyTruthy response_body
    then output ++ "    响应体:\n" ++ pyShowOptStr response_body ++ "\n"
    else output
  output ++ separatorLine

/-! ### `process_url` (lines 136–156) -/

/-- Line 150: `args.status_code is None or status_code in args.status_code`. -/
def statusAllowed (allow : Option (List Int)) (status_code : Int) : Bool :=
  match allow with
  | none => true
  | some l => decide (status_code ∈ l)

/-- Line 151: `redirect_count = len(history)`. -/
def redirect_count (history : List HistEntry) : Nat :=
  history.length

/-- Line 152:
`final_url = full_url if not history else history[-1].headers.get('Location', full_url)`. -/
def final_url (full_url : String) (history : List HistEntry) : String :=
  match history.getLast? with
  | none => full_url
  | some last => ciGet last.headers "Location" full_url

/-- `process_url(full_url, args, params, headers, output_lines)`: runs the
probe, drops results whose status code is `None`, filters by the allowlist,
formats the survivors, appends the block to the shared accumulator and logs
it.  Returns the updated accumulator together with the log records emitted.
The wildcard branch covers the all-`None` failure tuple (mixed tuples never
arise, see `get_url_info_shape`). -/
def process_url (net : Transport) (full_url : String) (args : Args)
    (params hdrs : List (String × String)) (output_lines : List String) :
    List String × List LogEntry :=
  let r := get_url_info net full_url args.method
  match r.1 with
  | ⟨some sc, title, some len, some ct, some sv, some rt, some hist, some body⟩ =>
    if statusAllowed args.status_code sc then
      let output := format_output full_url sc title len args.method params hdrs
        ct sv rt (redirect_count hist) (final_url full_url hist)
        (if args.response_body then some body else none)
      (output_lines ++ [output], r.2 ++ [.info (pyStrip output)])
    else
      (output_lines, r.2)
  | _ => (output_lines, r.2)

/-! ### URL building and dispatch in `main` (lines 190–217) -/

/-- Python `lstrip('/')`: drop every leading slash. -/
def lstrip_slash (s : String) : String :=
  String.mk (s.data.dropWhile (fun c => c == '/'))

/-- Python `rstrip('/')`: drop every trailing slash. -/
def rstrip_slash (s : String) : String :=
  String.mk ((s.data.reverse.dropWhile (fun c => c == '/')).reverse)

/-- Line 200: `args.url.rstrip('/') + '/' + sub_url.lstrip('/')`. -/
def build_full_url (base sub_url : String) : String :=
  rstrip_slash base ++ "/" ++ lstrip_slash sub_url

/-- The spec's reading of the join, stated for comparison with
`build_full_url`: strip exactly ONE trailing slash from the base and
exactly one leading slash from the suffix, then join with a single slash. -/
def specJoinOneSlash (base sub_url : String) : String :=
  (if base.data.getLast? = some '/' then String.mk base.data.dropLast else base)
    ++ "/" ++
  (if sub_url.data.head? = some '/' then String.mk sub_url.data.tail else sub_url)

/-- The spec's reading of the URL Builder, stated for comparison with
`build_urls`: one Target per non-empty input line, blank lines ignored. -/
def specBuildUrlsSkipBlank (base : String) (direct : Bool)
    (fileLines : List String) : List String :=
  (fileLines.filter (fun line => pyStrip line ≠ "")).map (fun line =>
    let sub_url := pyStrip line
    if direct then sub_url else build_full_url base sub_url)

/-- Lines 193–201: the loop over the lines of the `-f` file.  Every line is
stripped of outer whitespace and appended to `urls` — there is no guard
skipping blank lines.  In direct mode the stripped line is the target;
otherwise it is joined to the base URL. -/
def build_urls (base : String) (direct : Bool) (fileLines : List String) :
    List String :=
  fileLines.map (fun line =>
    let sub_url := pyStrip line
    if direct then sub_url else build_full_url base sub_url)

/-- Outcome of `open(args.file, 'r', encoding='utf-8')` plus the read:
the lines, or a raised `FileNotFoundError`, or any other raised `OSError`
or decode error. -/
inductive FileReadOutcome where
  | ok (fileLines : List String)
  | notFound
  | otherError (e : String)
deriving Repr, DecidableEq

/-- What the target-selection part of `main` (lines 190–217) does, observed
at the level the claims need: which targets get probed, or which terminal
path is taken instead. -/
inductive MainResult where
  /-- Lines 171–185: neither `-f` nor `-u` is truthy; help text, return. -/
  | helpPrinted
  /-- The listed targets are handed to `process_url` (via the pool, or the
  single synchronous call of line 215). -/
  | probed (targets : List String)
  /-- Line 212–213: `except FileNotFoundError` — logged, run continues. -/
  | fileNotFoundLogged
  /-- An exception no handler catches escapes `main`. -/
  | uncaught (e : String)
  /-- Line 217: `logging.info("请提供有效的 -f 文件路径或 -u URL。")`. -/
  | usageLogged
deriving Repr, DecidableEq

/-- The dispatch structure of `main`: which branch runs and which targets
are probed.  `file` is the outcome the `open` call would have; it is only
consulted in the branch that actually opens the file.  Note the file branch
requires both `args.file` and `args.url` to be truthy, and its
`try` protects only against `FileNotFoundError`. -/
def main_dispatch (args : Args) (file : FileReadOutcome) : MainResult :=
  if !pyTruthy args.file && !pyTruthy args.url then
    .helpPrinted
  else if pyTruthy args.file && pyTruthy args.url then
    match file with
    | .ok fileLines => .probed (build_urls (args.url.getD "") args.direct fileLines)
    | .notFound => .fileNotFoundLogged
    | .otherError e => .uncaught e
  else if pyTruthy args.url then
    .probed [args.url.getD ""]
  else
    .usageLogged

/-- The effect of the batch on the shared `output_lines` accumulator when
the probes run (the `t = 1` schedule; each target is processed once and
appends its blocks, a failing target appending none). -/
def run_batch (net : String → Transport) (args : Args)
    (params hdrs : List (String × String)) (urls : List String)
    (acc : List String) : List String :=
  urls.foldl (fun lines u => (process_url (net u) u args params hdrs lines).1) acc

/-! ## Helper lemmas -/

/-- Dropping a `'/'`-prefix: the dropped part is a run of slashes and the
remainder does not start with one. -/
lemma dropWhile_slash_char (l : List Char) :
    (∃ n, l = List.replicate n '/' ++ l.dropWhile (fun c => c == '/')) ∧
      (l.dropWhile (fun c => c == '/')).head? ≠ some '/' := by
  induction l with
  | nil => exact ⟨⟨0, rfl⟩, by simp⟩
  | cons c cs ih =>
    by_cases h : c = '/'
    · subst h
      obtain ⟨⟨n, h1⟩, h2⟩ := ih
      refine ⟨⟨n + 1, ?_⟩, ?_⟩
      · simpa [List.replicate_succ] using h1
      · simpa using h2
    · refine ⟨⟨0, by simp [h]⟩, by simp [h]⟩

/-- `lstrip_slash` removes exactly the leading run of slashes. -/
lemma lstrip_slash_spec (s : String) :
    (∃ n, s.data = List.replicate n '/' ++ (lstrip_slash s).data) ∧
      (lstrip_slash s).data.head? ≠ some '/' :=
  dropWhile_slash_char s.data

/-- `rstrip_slash` removes exactly the trailing run of slashes. -/
lemma rstrip_slash_spec (s : String) :
    (∃ n, s.data = (rstrip_slash s).data ++ List.replicate n '/') ∧
      (rstrip_slash s).data.getLast? ≠ some '/' := by
  obtain ⟨⟨n, h1⟩, h2⟩ := dropWhile_slash_char s.data.reverse
  constructor
  · refine ⟨n, ?_⟩
    have h3 := congrArg List.reverse h1
    simpa [rstrip_slash] using h3
  · simpa [rstrip_slash, List.getLast?_reverse] using h2

/-- A raised `RequestException` always yields the all-`None` tuple. -/
lemma get_url_info_exn_fst (e url method : String) :
    (get_url_info (.exn e) url method).1 = noneTuple := by
  unfold get_url_info
  split <;> rfl

/-- A raised `RequestException` on a supported method logs the request error. -/
lemma get_url_info_exn (e url method : String)
    (h : supportedMethod method = true) :
    get_url_info (.exn e) url method =
      (noneTuple, [.error ("请求 " ++ url ++ " 时出错: " ++ e)]) := by
  simp [get_url_info, h]

/-- An unsupported method name logs the unsupported-method error and yields
the all-`None` tuple, whatever the network would have done. -/
lemma get_url_info_unsupported (net : Transport) (url method : String)
    (h : supportedMethod method = false) :
    get_url_info net url method =
      (noneTuple, [.error ("不支持的请求方法: " ++ method)]) := by
  simp [get_url_info, h]

/-- On a supported method and a delivered response, the tuple is fully
populated from the response. -/
lemma get_url_info_ok (url method : String) (resp : Response) (el : Int)
    (h : supportedMethod method = true) :
    get_url_info (.ok resp el) url method =
      (⟨some resp.status_code, extract_title resp.text,
        some resp.content_length,
        some (ciGet resp.headers "Content-Type" "未找到 Content-Type"),
        some (lowerGet resp.headers "server" "未找到 Server"),
        some el, some resp.history, some resp.text⟩, []) := by
  simp [get_url_info, h]

/-- A probe whose tuple has a `None` status code came from one of the two
failure paths: the whole tuple is `None` and exactly one error was logged. -/
lemma get_url_info_status_none (net : Transport) (url method : String)
    (h : (get_url_info net url method).1.status_code = none) :
    (get_url_info net url method).1 = noneTuple ∧
      ∃ msg, (get_url_info net url method).2 = [.error msg] := by
  cases hnet : net with
  | exn e =>
    rcases hsupp : supportedMethod method with _ | _
    · rw [get_url_info_unsupported _ _ _ hsupp]
      exact ⟨rfl, ⟨_, rfl⟩⟩
    · rw [get_url_info_exn _ _ _ hsupp]
      exact ⟨rfl, ⟨_, rfl⟩⟩
  | ok resp el =>
    rcases hsupp : supportedMethod method with _ | _
    · rw [get_url_info_unsupported _ _ _ hsupp]
      exact ⟨rfl, ⟨_, rfl⟩⟩
    · rw [hnet, get_url_info_ok _ _ _ _ hsupp] at h
      simp at h

/-- When `get_url_info` fails, `process_url` leaves the accumulator alone
and forwards only the failure's log records. -/
lemma process_url_of_noneTuple (net : Transport) (url : String) (args : Args)
    (params hdrs : List (String × String)) (acc : List String)
    (h : (get_url_info net url args.method).1 = noneTuple) :
    process_url net url args params hdrs acc =
      (acc, (get_url_info net url args.method).2) := by
  simp only [process_url]
  rw [h]
  rfl

/-- A raised `RequestException` leaves the accumulator alone. -/
lemma process_url_exn_fst (e url : String) (args : Args)
    (params hdrs : List (String × String)) (acc : List String) :
    (process_url (.exn e) url args params hdrs acc).1 = acc := by
  rw [process_url_of_noneTuple _ _ _ _ _ _ (get_url_info_exn_fst e url args.method)]

/-- Success path, allowlist rejects: nothing is formatted or accumulated. -/
lemma process_url_ok_notAllowed (url : String) (args : Args)
    (params hdrs : List (String × String)) (acc : List String)
    (resp : Response) (el : Int)
    (hm : supportedMethod args.method = true)
    (ha : statusAllowed args.status_code resp.status_code = false) :
    process_url (.ok resp el) url args params hdrs acc = (acc, []) := by
  unfold process_url
  rw [get_url_info_ok _ _ _ _ hm]
  simp [ha]

/-- Success path, allowlist admits: the formatted block is appended to the
accumulator and logged. -/
lemma process_url_ok_allowed (url : String) (args : Args)
    (params hdrs : List (String × String)) (acc : List String)
    (resp : Response) (el : Int) (block : String)
    (hm : supportedMethod args.method = true)
    (ha : statusAllowed args.status_code resp.status_code = true)
    (hb : block = format_output url resp.status_code (extract_title resp.text)
      resp.content_length args.method params hdrs
      (ciGet resp.headers "Content-Type" "未找到 Content-Type")
      (lowerGet resp.headers "server" "未找到 Server") el
      (redirect_count resp.history) (final_url url resp.history)
      (if args.response_body then some resp.text else none)) :
    process_url (.ok resp el) url args params hdrs acc =
      (acc ++ [block], [.info (pyStrip block)]) := by
  subst hb
  unfold process_url
  rw [get_url_info_ok _ _ _ _ hm]
  simp [ha]

/-- An empty body suppresses the response-body section exactly as its
absence does. -/
lemma format_output_empty_body (full_url : String) (sc : Int)
    (title : Option String) (len : Nat) (method : String)
    (params hdrs : List (String × String)) (ct sv : String) (rt : Int)
    (rc : Nat) (fu : String) :
    format_output full_url sc title len method params hdrs ct sv rt rc fu
        (some "") =
      format_output full_url sc title len method params hdrs ct sv rt rc fu
        none := by
  simp [format_output, pyTruthy]

/-! ## Claim theorems -/

/-- C1: a raised `RequestException` or an unsupported method name makes
`get_url_info` return the all-`None` sentinel tuple together with exactly
one error log record — it does not raise to its caller (the embedding is a
total function of the single supplied request outcome, so no retry exists)
— and such a failing target leaves the shared accumulator untouched, so in
a batch it contributes zero formatted output lines while deleting it from
the batch changes nothing for the other targets. -/
theorem c1_transport_failure_isolated
    (url goodMethod badMethod e : String) (net : String → Transport)
    (args : Args) (params hdrs : List (String × String))
    (l₁ l₂ : List String) (bad : String) (acc : List String) :
    (supportedMethod goodMethod = true →
      get_url_info (.exn e) url goodMethod =
        (noneTuple, [.error ("请求 " ++ url ++ " 时出错: " ++ e)])) ∧
    (supportedMethod badMethod = false →
      ∀ net₀ : Transport, get_url_info net₀ url badMethod =
        (noneTuple, [.error ("不支持的请求方法: " ++ badMethod)])) ∧
    ((process_url (.exn e) url args params hdrs acc).1 = acc) ∧
    (net bad = .exn e →
      run_batch net args params hdrs (l₁ ++ bad :: l₂) acc =
        run_batch net args params hdrs (l₁ ++ l₂) acc) := by
  refine ⟨fun hm => get_url_info_exn e url goodMethod hm,
    fun hm net₀ => get_url_info_unsupported net₀ url badMethod hm,
    process_url_exn_fst e url args params hdrs acc, fun hbad => ?_⟩
  unfold run_batch
  rw [List.foldl_append, List.foldl_append, List.foldl_cons]
  simp only [hbad, process_url_exn_fst]

/-- C1 witness: a ten-line batch shrunk to three targets, the middle one
failing with a connection error. -/
theorem c1_transport_failure_isolated_witness :
    supportedMethod "get" = true ∧
    supportedMethod "patch" = false ∧
    (fun u => if u = "http://bad" then Transport.exn "timeout"
      else Transport.ok ⟨200, 0, "", [], []⟩ 0) "http://bad" =
        Transport.exn "timeout" ∧
    get_url_info (.exn "timeout") "http://a" "get" =
      (noneTuple, [.error "请求 http://a 时出错: timeout"]) ∧
    get_url_info (.ok ⟨200, 0, "", [], []⟩ 0) "http://a" "patch" =
      (noneTuple, [.error "不支持的请求方法: patch"]) ∧
    (process_url (.exn "timeout") "http://a"
      ⟨none, some "http://a", none, false, "get", none, none, 1, none, false⟩
      [] [] []).1 = [] ∧
    run_batch
      (fun u => if u = "http://bad" then Transport.exn "timeout"
        else Transport.ok ⟨200, 0, "", [], []⟩ 0)
      ⟨none, some "http://a", none, false, "get", none, none, 1, none, false⟩
      [] [] (["http://g1"] ++ "http://bad" :: ["http://g2"]) [] =
    run_batch
      (fun u => if u = "http://bad" then Transport.exn "timeout"
        else Transport.ok ⟨200, 0, "", [], []⟩ 0)
      ⟨none, some "http://a", none, false, "get", none, none, 1, none, false⟩
      [] [] (["http://g1"] ++ ["http://g2"]) [] := by
  have h := c1_transport_failure_isolated "http://a" "get" "patch" "timeout"
    (fun u => if u = "http://bad" then Transport.exn "timeout"
      else Transport.ok ⟨200, 0, "", [], []⟩ 0)
    ⟨none, some "http://a", none, false, "get", none, none, 1, none, false⟩
    [] [] ["http://g1"] ["http://g2"] "http://bad" []
  exact ⟨by decide, by decide, by decide, h.1 (by decide),
    h.2.1 (by decide) _, h.2.2.1, h.2.2.2 (by decide)⟩

/-- C6: a probe outcome whose status code is `None` is never passed to the
formatter — the accumulator is returned unchanged — and the probe's own
single error log record is all that is emitted. -/
theorem c6_null_status_dropped (net : Transport) (url : String) (args : Args)
    (params hdrs : List (String × String)) (acc : List String)
    (h : (get_url_info net url args.method).1.status_code = none) :
    process_url net url args params hdrs acc =
      (acc, (get_url_info net url args.method).2) ∧
    ∃ msg, (get_url_info net url args.method).2 = [.error msg] := by
  obtain ⟨h1, h2⟩ := get_url_info_status_none net url args.method h
  exact ⟨process_url_of_noneTuple net url args params hdrs acc h1, h2⟩

/-- C6 witness: a refused connection on a `get` probe. -/
theorem c6_null_status_dropped_witness :
    (get_url_info (.exn "refused") "http://a" "get").1.status_code = none ∧
    process_url (.exn "refused") "http://a"
        ⟨none, some "http://a", none, false, "get", none, none, 1, none, false⟩
        [] [] ["x"] =
      (["x"], (get_url_info (.exn "refused") "http://a" "get").2) ∧
    ∃ msg, (get_url_info (.exn "refused") "http://a" "get").2 =
      [.error msg] := by
  have h := c6_null_status_dropped (.exn "refused") "http://a"
    ⟨none, some "http://a", none, false, "get", none, none, 1, none, false⟩
    [] [] ["x"] (by decide)
  exact ⟨by decide, h.1, h.2⟩

/-- C7: on a delivered response, a body whose parse has no `<title>`
element yields the exact sentinel `未找到标题`, and the body
`<title>Hello</title>` yields exactly `Hello`; extraction is a total
function of the body, so no HTML makes it raise. -/
theorem c7_title_extraction (url method : String) (resp : Response)
    (el : Int) (hm : supportedMethod method = true) :
    (soupTitle resp.text = none →
      (get_url_info (.ok resp el) url method).1.title = some "未找到标题") ∧
    (resp.text = "<title>Hello</title>" →
      (get_url_info (.ok resp el) url method).1.title = some "Hello") := by
  refine ⟨fun h => ?_, fun h => ?_⟩
  · rw [get_url_info_ok url method resp el hm]
    simp [extract_title, h]
  · rw [get_url_info_ok url method resp el hm]
    show extract_title resp.text = some "Hello"
    rw [h]
    rfl

/-- C7 witness: a title-less page and a `Hello`-titled page. -/
theorem c7_title_extraction_witness :
    supportedMethod "get" = true ∧
    soupTitle "<p>plain</p>" = none ∧
    (get_url_info (.ok ⟨200, 0, "<p>plain</p>", [], []⟩ 0) "http://a"
      "get").1.title = some "未找到标题" ∧
    (get_url_info (.ok ⟨200, 0, "<title>Hello</title>", [], []⟩ 0) "http://a"
      "get").1.title = some "Hello" := by
  refine ⟨by decide, by decide, ?_, ?_⟩
  · exact (c7_title_extraction "http://a" "get" ⟨200, 0, "<p>plain</p>", [], []⟩
      0 (by decide)).1 (by decide)
  · exact (c7_title_extraction "http://a" "get"
      ⟨200, 0, "<title>Hello</title>", [], []⟩ 0 (by decide)).2 rfl

/-- C8: in the formatted block, the reported redirect count is the number
of entries in the redirect history, and the reported final URL is the
original target when the history is empty, otherwise the `Location` header
of the last history entry. -/
theorem c8_redirect_report (url : String) (args : Args)
    (params hdrs : List (String × String)) (acc : List String)
    (resp : Response) (el : Int) (es : List HistEntry) (last : HistEntry)
    (L : String)
    (hm : supportedMethod args.method = true)
    (ha : statusAllowed args.status_code resp.status_code = true) :
    (resp.history = [] →
      (process_url (.ok resp el) url args params hdrs acc).1 =
        acc ++ [format_output url resp.status_code (extract_title resp.text)
          resp.content_length args.method params hdrs
          (ciGet resp.headers "Content-Type" "未找到 Content-Type")
          (lowerGet resp.headers "server" "未找到 Server") el
          0 url (if args.response_body then some resp.text else none)]) ∧
    (resp.history = es ++ [last] →
      ciGet last.headers "Location" url = L →
      (process_url (.ok resp el) url args params hdrs acc).1 =
        acc ++ [format_output url resp.status_code (extract_title resp.text)
          resp.content_length args.method params hdrs
          (ciGet resp.headers "Content-Type" "未找到 Content-Type")
          (lowerGet resp.headers "server" "未找到 Server") el
          (es.length + 1) L
          (if args.response_body then some resp.text else none)]) := by
  have hpe := process_url_ok_allowed url args params hdrs acc resp el _ hm ha
    rfl
  constructor
  · intro hh
    simp only [hpe]
    rw [hh]
    rfl
  · intro hh hL
    simp only [hpe]
    rw [hh]
    simp [redirect_count, final_url, List.getLast?_concat, hL]

/-- C8 witness: a response with a two-entry redirect history whose last
entry redirects to `http://final`, and a redirect-free response. -/
theorem c8_redirect_report_witness :
    supportedMethod "get" = true ∧
    statusAllowed none 200 = true ∧
    (⟨200, 3, "", [],
      [⟨[("Server", "x")]⟩, ⟨[("Location", "http://final")]⟩]⟩ :
        Response).history =
      [⟨[("Server", "x")]⟩] ++ [⟨[("Location", "http://final")]⟩] ∧
    ciGet [("Location", "http://final")] "Location" "http://a" =
      "http://final" ∧
    (process_url
      (.ok ⟨200, 3, "", [],
        [⟨[("Server", "x")]⟩, ⟨[("Location", "http://final")]⟩]⟩ 0)
      "http://a"
      ⟨none, some "http://a", none, false, "get", none, none, 1, none, false⟩
      [] [] []).1 =
      [format_output "http://a" 200 (some "未找到标题") 3 "get" [] []
        "未找到 Content-Type" "未找到 Server" 0 2 "http://final" none] ∧
    (process_url (.ok ⟨200, 3, "", [], []⟩ 0) "http://a"
      ⟨none, some "http://a", none, false, "get", none, none, 1, none, false⟩
      [] [] []).1 =
      [format_output "http://a" 200 (some "未找到标题") 3 "get" [] []
        "未找到 Content-Type" "未找到 Server" 0 0 "http://a" none] := by
  refine ⟨by decide, by decide, rfl, rfl, ?_, ?_⟩
  · exact (c8_redirect_report "http://a"
      ⟨none, some "http://a", none, false, "get", none, none, 1, none, false⟩
      [] [] []
      ⟨200, 3, "", [], [⟨[("Server", "x")]⟩, ⟨[("Location", "http://final")]⟩]⟩
      0 [⟨[("Server", "x")]⟩] ⟨[("Location", "http://final")]⟩ "http://final"
      (by decide) (by decide)).2 rfl rfl
  · exact (c8_redirect_report "http://a"
      ⟨none, some "http://a", none, false, "get", none, none, 1, none, false⟩
      [] [] [] ⟨200, 3, "", [], []⟩ 0 [] ⟨[]⟩ "http://a"
      (by decide) (by decide)).1 rfl

/-- C10: the formatted block contains the response-body section only when
the body is a non-empty string — an empty body yields a block literally
identical to one without a body — and a `-r` probe of an empty response
body is indistinguishable from the same probe without `-r`. -/
theorem c10_empty_body_section (full_url : String) (sc : Int)
    (title : Option String) (len : Nat) (method : String)
    (params hdrs : List (String × String)) (ct sv : String) (rt : Int)
    (rc : Nat) (fu : String) (s : String) (url : String) (args : Args)
    (p hd : List (String × String)) (acc : List String) (resp : Response)
    (el : Int) :
    (format_output full_url sc title len method params hdrs ct sv rt rc fu
        (some "") =
      format_output full_url sc title len method params hdrs ct sv rt rc fu
        none) ∧
    (s ≠ "" →
      format_output full_url sc title len method params hdrs ct sv rt rc fu
          (some s) ≠
        format_output full_url sc title len method params hdrs ct sv rt rc fu
          none) ∧
    (resp.text = "" →
      process_url (.ok resp el) url args p hd acc =
        process_url (.ok resp el) url
          { args with response_body := false } p hd acc) := by
  refine ⟨format_output_empty_body _ _ _ _ _ _ _ _ _ _ _ _,
    fun hs heq => ?_, fun ht => ?_⟩
  · have hts : pyTruthy (some s) = true := by simp [pyTruthy, hs]
    have h0 : pyTruthy none = false := rfl
    simp only [format_output, hts, h0, pyShowOptStr, if_true,
      Bool.false_eq_true, if_false] at heq
    have hlen := congrArg String.length heq
    simp only [String.length_append] at hlen
    have h1 : ("    响应体:\n" : String).length = 9 := rfl
    have h2 : ("\n" : String).length = 1 := rfl
    rw [h1, h2] at hlen
    omega
  · rcases hsupp : supportedMethod args.method with _ | _
    · have h1 := get_url_info_unsupported (.ok resp el) url args.method hsupp
      rw [process_url_of_noneTuple (.ok resp el) url args p hd acc
          (by rw [h1]),
        process_url_of_noneTuple (.ok resp el) url
          { args with response_body := false } p hd acc
          (by show (get_url_info (.ok resp el) url args.method).1 = noneTuple
              rw [h1])]
    · rcases hallow : statusAllowed args.status_code resp.status_code
        with _ | _
      · rw [process_url_ok_notAllowed url args p hd acc resp el hsupp hallow,
          process_url_ok_notAllowed url { args with response_body := false }
            p hd acc resp el hsupp hallow]
      · rw [process_url_ok_allowed url args p hd acc resp el _ hsupp hallow
            rfl,
          process_url_ok_allowed url { args with response_body := false }
            p hd acc resp el _ hsupp hallow rfl]
        rw [ht]
        rcases hrb : args.response_body with _ | _
        · simp [hrb]
        · simp only [hrb, if_true]
          rw [format_output_empty_body]
          simp

/-- C10 witness: a `-r` probe whose response body is empty. -/
theorem c10_empty_body_section_witness :
    ("x" : String) ≠ "" ∧
    (⟨200, 0, "", [], []⟩ : Response).text = "" ∧
    format_output "http://a" 200 none 0 "get" [] [] "ct" "sv" 0 0 "http://a"
        (some "") =
      format_output "http://a" 200 none 0 "get" [] [] "ct" "sv" 0 0 "http://a"
        none ∧
    format_output "http://a" 200 none 0 "get" [] [] "ct" "sv" 0 0 "http://a"
        (some "x") ≠
      format_output "http://a" 200 none 0 "get" [] [] "ct" "sv" 0 0 "http://a"
        none ∧
    process_url (.ok ⟨200, 0, "", [], []⟩ 0) "http://a"
        ⟨none, some "http://a", none, false, "get", none, none, 1, none, true⟩
        [] [] [] =
      process_url (.ok ⟨200, 0, "", [], []⟩ 0) "http://a"
        ⟨none, some "http://a", none, false, "get", none, none, 1, none, false⟩
        [] [] [] := by
  have h := c10_empty_body_section "http://a" 200 none 0 "get" [] [] "ct" "sv"
    0 0 "http://a" "x" "http://a"
    ⟨none, some "http://a", none, false, "get", none, none, 1, none, true⟩
    [] [] [] ⟨200, 0, "", [], []⟩ 0
  exact ⟨by decide, rfl, h.1, h.2.1 (by decide), h.2.2 rfl⟩

/-- C2 counterexample: a successful 200 probe against a supplied-but-empty
allowlist is NOT formatted, refuting "absent or empty allowlist passes
everything" on the empty list. -/
theorem c2_empty_allowlist_cex :
    statusAllowed (some []) 200 = false ∧
    (process_url (.ok ⟨200, 0, "", [], []⟩ 0) "http://a"
      ⟨none, some "http://a", none, false, "get", some [], none, 1, none,
        false⟩ [] [] []).1 = [] := by
  exact ⟨rfl, rfl⟩

/-- C2 (amended): an absent (`None`) allowlist passes every successful
result and a supplied allowlist passes exactly its members — so a supplied
EMPTY allowlist passes nothing (the CLI cannot build one, `-c` requiring at
least one value); `[200, 404]` against codes `[200, 301, 404, 500]` admits
exactly the 200 and 404 results, order preserved. -/
theorem c2_allowlist_filtering (sc : Int) (l : List Int) (url : String)
    (args : Args) (params hdrs : List (String × String)) (acc : List String)
    (resp : Response) (el : Int) :
    statusAllowed none sc = true ∧
    (statusAllowed (some l) sc = true ↔ sc ∈ l) ∧
    statusAllowed (some []) sc = false ∧
    ([200, 301, 404, 500].filter
      (fun c => statusAllowed (some [200, 404]) c) = [200, 404]) ∧
    (supportedMethod args.method = true →
      statusAllowed args.status_code resp.status_code = false →
      (process_url (.ok resp el) url args params hdrs acc).1 = acc) ∧
    (supportedMethod args.method = true →
      statusAllowed args.status_code resp.status_code = true →
      ∃ block, (process_url (.ok resp el) url args params hdrs acc).1 =
        acc ++ [block]) := by
  refine ⟨rfl, by simp [statusAllowed], rfl, by decide, fun hm ha => ?_,
    fun hm ha => ?_⟩
  · rw [process_url_ok_notAllowed url args params hdrs acc resp el hm ha]
  · exact ⟨_, by
      rw [process_url_ok_allowed url args params hdrs acc resp el _ hm ha
        rfl]⟩

/-- C2 witness: a 200 response against the allowlists `[404]` and `[200]`. -/
theorem c2_allowlist_filtering_witness :
    supportedMethod "get" = true ∧
    statusAllowed (some [404]) 200 = false ∧
    statusAllowed (some [200]) 200 = true ∧
    (process_url (.ok ⟨200, 0, "", [], []⟩ 0) "http://a"
      ⟨none, some "http://a", none, false, "get", some [404], none, 1, none,
        false⟩ [] [] ["kept"]).1 = ["kept"] ∧
    ∃ block,
      (process_url (.ok ⟨200, 0, "", [], []⟩ 0) "http://a"
        ⟨none, some "http://a", none, false, "get", some [200], none, 1,
          none, false⟩ [] [] ["kept"]).1 = ["kept"] ++ [block] := by
  refine ⟨by decide, by decide, by decide, ?_, ?_⟩
  · exact (c2_allowlist_filtering 200 [] "http://a"
      ⟨none, some "http://a", none, false, "get", some [404], none, 1, none,
        false⟩ [] [] ["kept"] ⟨200, 0, "", [], []⟩ 0).2.2.2.2.1
      (by decide) (by decide)
  · exact (c2_allowlist_filtering 200 [] "http://a"
      ⟨none, some "http://a", none, false, "get", some [200], none, 1, none,
        false⟩ [] [] ["kept"] ⟨200, 0, "", [], []⟩ 0).2.2.2.2.2
      (by decide) (by decide)

/-- C3 counterexample: for a base ending in two slashes the code (which
strips ALL trailing slashes) and the claim's exactly-one-slash reading
disagree. -/
theorem c3_exactly_one_slash_cex :
    build_full_url "http://x.com//" "users" = "http://x.com/users" ∧
    specJoinOneSlash "http://x.com//" "users" = "http://x.com//users" ∧
    build_full_url "http://x.com//" "users" ≠
      specJoinOneSlash "http://x.com//" "users" := by
  exact ⟨rfl, rfl, by decide⟩

/-- C3 (amended): the non-direct target is the base with ALL trailing
slashes stripped, joined by a single slash to the suffix with ALL leading
slashes stripped (this agrees with the claim whenever at most one such
slash is present). -/
theorem c3_join_strips_all_slashes (base sub_url : String) :
    ∃ m n,
      base.data = (rstrip_slash base).data ++ List.replicate m '/' ∧
      (rstrip_slash base).data.getLast? ≠ some '/' ∧
      sub_url.data = List.replicate n '/' ++ (lstrip_slash sub_url).data ∧
      (lstrip_slash sub_url).data.head? ≠ some '/' ∧
      build_full_url base sub_url =
        rstrip_slash base ++ "/" ++ lstrip_slash sub_url := by
  obtain ⟨⟨m, hb⟩, hb2⟩ := rstrip_slash_spec base
  obtain ⟨⟨n, hs⟩, hs2⟩ := lstrip_slash_spec sub_url
  exact ⟨m, n, hb, hb2, hs, hs2, rfl⟩

/-- C4 counterexample: `-d -f` without `-u` never probes the file's line;
the run falls into the usage-message branch instead. -/
theorem c4_direct_without_base_cex :
    main_dispatch
      ⟨some "urls.txt", none, none, true, "get", none, none, 1, none, false⟩
      (.ok ["http://a.example/x"]) = .usageLogged ∧
    main_dispatch
      ⟨some "urls.txt", none, none, true, "get", none, none, 1, none, false⟩
      (.ok ["http://a.example/x"]) ≠ .probed ["http://a.example/x"] := by
  exact ⟨rfl, by decide⟩

/-- C4 (amended): direct mode passes each file line through verbatim after
whitespace stripping, but only when a base URL is also supplied; with a
truthy `-f` and no truthy `-u` the file branch is never entered and only a
usage message is logged. -/
theorem c4_direct_mode_needs_base (args : Args) (fileLines : List String)
    (fo : FileReadOutcome) (hf : pyTruthy args.file = true) :
    (pyTruthy args.url = true → args.direct = true →
      main_dispatch args (.ok fileLines) =
        .probed (fileLines.map pyStrip)) ∧
    (pyTruthy args.url = false → main_dispatch args fo = .usageLogged) := by
  constructor
  · intro hu hd
    simp [main_dispatch, hf, hu, build_urls, hd]
  · intro hu
    simp [main_dispatch, hf, hu]

/-- C4 witness: the same one-line file with and without a base URL. -/
theorem c4_direct_mode_needs_base_witness :
    pyTruthy (some "urls.txt") = true ∧
    pyTruthy (some "http://b") = true ∧
    pyTruthy (none : Option String) = false ∧
    main_dispatch
      ⟨some "urls.txt", some "http://b", none, true, "get", none, none, 1,
        none, false⟩ (.ok [" http://a.example/x "]) =
      .probed ["http://a.example/x"] ∧
    main_dispatch
      ⟨some "urls.txt", none, none, true, "get", none, none, 1, none, false⟩
      (.ok [" http://a.example/x "]) = .usageLogged := by
  refine ⟨by decide, by decide, by decide, ?_, ?_⟩
  · exact (c4_direct_mode_needs_base
      ⟨some "urls.txt", some "http://b", none, true, "get", none, none, 1,
        none, false⟩ [" http://a.example/x "] (.ok [" http://a.example/x "])
      (by decide)).1 (by decide) rfl
  · exact (c4_direct_mode_needs_base
      ⟨some "urls.txt", none, none, true, "get", none, none, 1, none, false⟩
      [" http://a.example/x "] (.ok [" http://a.example/x "])
      (by decide)).2 (by decide)

/-- C5 counterexample: blank lines are NOT ignored — a three-line file with
two blank lines yields three targets, not one. -/
theorem c5_blank_lines_cex :
    build_urls "http://b" false ["a", "", ""] =
      ["http://b/a", "http://b/", "http://b/"] ∧
    specBuildUrlsSkipBlank "http://b" false ["a", "", ""] = ["http://b/a"] ∧
    build_urls "http://b" false ["a", "", ""] ≠
      specBuildUrlsSkipBlank "http://b" false ["a", "", ""] := by
  exact ⟨rfl, rfl, by decide⟩

/-- C5 (amended): the URL Builder produces exactly one Target per input
line, blank lines included, in input order; a blank (all-whitespace) line
becomes the stripped base joined to a bare trailing slash in non-direct
mode, and the empty string in direct mode. -/
theorem c5_one_target_per_line (base : String) (direct : Bool)
    (fileLines : List String) (i : Nat) (line : String)
    (hi : fileLines[i]? = some line) :
    (build_urls base direct fileLines).length = fileLines.length ∧
    (build_urls base direct fileLines)[i]? =
      some (if direct then pyStrip line
        else build_full_url base (pyStrip line)) ∧
    (pyStrip line = "" →
      (build_urls base direct fileLines)[i]? =
        some (if direct then "" else rstrip_slash base ++ "/")) := by
  refine ⟨by simp [build_urls], ?_, fun hb => ?_⟩
  · simp [build_urls, List.getElem?_map, hi]
  · simp [build_urls, List.getElem?_map, hi, hb, build_full_url,
      lstrip_slash]

/-- C5 witness: a file whose first line is all whitespace. -/
theorem c5_one_target_per_line_witness :
    (["  ", "a"] : List String)[0]? = some "  " ∧
    pyStrip "  " = "" ∧
    (build_urls "http://b/" false ["  ", "a"]).length = 2 ∧
    (build_urls "http://b/" false ["  ", "a"])[0]? = some "http://b/" := by
  have h := c5_one_target_per_line "http://b/" false ["  ", "a"] 0 "  " rfl
  exact ⟨rfl, rfl, h.1, h.2.2 rfl⟩

/-- C9 counterexample: an unreadable-but-present input file (permission
denied) is not caught — the exception escapes `main` as a crash rather than
a graceful exit. -/
theorem c9_unreadable_file_cex :
    main_dispatch
      ⟨some "urls.txt", some "http://b", none, false, "get", none, none, 1,
        none, false⟩
      (.otherError "PermissionError: [Errno 13] Permission denied") =
      .uncaught "PermissionError: [Errno 13] Permission denied" ∧
    main_dispatch
      ⟨some "urls.txt", some "http://b", none, false, "get", none, none, 1,
        none, false⟩
      (.otherError "PermissionError: [Errno 13] Permission denied") ≠
      .fileNotFoundLogged := by
  exact ⟨rfl, by decide⟩

/-- C9 (amended): only a MISSING input file (`FileNotFoundError`) is caught
and reported gracefully; any other read failure propagates out of `main`
as an unhandled exception. -/
theorem c9_only_missing_file_handled (args : Args) (e : String)
    (hf : pyTruthy args.file = true) (hu : pyTruthy args.url = true) :
    main_dispatch args .notFound = .fileNotFoundLogged ∧
    main_dispatch args (.otherError e) = .uncaught e := by
  constructor <;> simp [main_dispatch, hf, hu]

/-- C9 witness: a run with both `-f` and `-u` supplied. -/
theorem c9_only_missing_file_handled_witness :
    pyTruthy (some "urls.txt") = true ∧
    pyTruthy (some "http://b") = true ∧
    main_dispatch
      ⟨some "urls.txt", some "http://b", none, false, "get", none, none, 1,
        none, false⟩ .notFound = .fileNotFoundLogged ∧
    main_dispatch
      ⟨some "urls.txt", some "http://b", none, false, "get", none, none, 1,
        none, false⟩ (.otherError "decode error") =
      .uncaught "decode error" := by
  have h := c9_only_missing_file_handled
    ⟨some "urls.txt", some "http://b", none, false, "get", none, none, 1,
      none, false⟩ "decode error" (by decide) (by decide)
  exact ⟨by decide, by decide, h.1, h.2⟩

end Lazyapi
